import Mathlib

/-
Verification development for the LLM council pipeline.

Shallow embedding of the core of the repository:
  backend/models.py      (data model)
  backend/config.py      (node and council configuration, as far as the core reads it)
  backend/llm_service.py (generate call, review parsing, review aggregation, chairman synthesis)
  backend/council.py     (three-phase orchestration pipeline, blocking and streaming)

External HTTP traffic is modelled by an explicit environment of outcomes
(one outcome per node call).  Latency measurements, timestamps and the
process-wide status/latency caches are side channels no verified property
mentions and are not modelled.  Float-valued ranking averages are modelled
over the rationals.
-/

namespace LLMCouncil

/-! ## Data model (backend/models.py) -/

inductive CouncilStage where
  | PENDING
  | FIRST_OPINIONS
  | REVIEW_RANKING
  | CHAIRMAN_SYNTHESIS
  | COMPLETED
  | ERROR
deriving DecidableEq, Repr

structure FirstOpinionResponse where
  llm_name : String
  model : String
  response : String
  token_count : Option Nat
deriving DecidableEq, Repr

structure ReviewScore where
  reviewer_name : String
  reviewed_name : String
  original_name : String
  score : Nat
  reasoning : String
  accuracy_score : Nat
  insight_score : Nat
deriving DecidableEq, Repr

structure ReviewRoundResponse where
  reviews : List ReviewScore
  rankings : List (String × ℚ)
deriving DecidableEq, Repr

structure ChairmanSynthesis where
  chairman_name : String
  model : String
  final_response : String
  reasoning_summary : String
deriving DecidableEq, Repr

structure CouncilSession where
  session_id : String
  query : String
  stage : CouncilStage
  first_opinions : List FirstOpinionResponse
  review_results : Option ReviewRoundResponse
  chairman_synthesis : Option ChairmanSynthesis
  error_message : Option String
deriving DecidableEq, Repr

/-! ## Configuration (backend/config.py), restricted to the fields the core reads -/

structure LLMNode where
  name : String
  model : String
  is_chairman : Bool
deriving DecidableEq, Repr

structure CouncilConfig where
  council_members : List LLMNode
  chairman : Option LLMNode
  chairman_mode : String
  chairman_remote_base_url : Option String
deriving DecidableEq, Repr

/-! ## Python string helpers used by the embedded code -/

/-- ASCII whitespace as recognised by the Python regex class backslash-s
and by str.strip (unicode spaces beyond ASCII are not modelled). -/
def isPySpace (c : Char) : Bool :=
  c == ' ' || c == Char.ofNat 9 || c == Char.ofNat 10 || c == Char.ofNat 13 ||
  c == Char.ofNat 11 || c == Char.ofNat 12

def pyStripList (s : List Char) : List Char :=
  ((s.dropWhile isPySpace).reverse.dropWhile isPySpace).reverse

def pyStripStr (s : String) : String :=
  String.mk (pyStripList s.toList)

def pyLowerStr (s : String) : String :=
  String.mk (s.toList.map Char.toLower)

/-- Python `a or b` on strings: the empty string is falsy. -/
def pyOrStr (s d : String) : String :=
  if s.isEmpty then d else s

/-- Python truthiness test `not x` for an optional string: missing or empty is falsy. -/
def pyFalsyOpt : Option String → Bool
  | none => true
  | some s => s.isEmpty

/-! ## Node client: generate_response (llm_service.py lines 91-138)

An HTTP call outcome is either a timeout or a response with a status code
and a decoded chat payload. -/

structure ChatPayload where
  content : String
  eval_count : Option Nat
  prompt_eval_count : Option Nat
deriving DecidableEq, Repr

inductive HttpOutcome where
  | timeout
  | response (status : Nat) (payload : ChatPayload)
deriving DecidableEq, Repr

/-- Token accounting of generate_response (lines 121-126):
tokens = eval_count when present; the elif branch requires eval_count too
and is therefore unreachable; otherwise tokens stays None. -/
def tokensOf (p : ChatPayload) : Option Nat :=
  if p.eval_count.isSome then
    p.eval_count
  else if p.prompt_eval_count.isSome && p.eval_count.isSome then
    some (p.prompt_eval_count.getD 0 + p.eval_count.getD 0)
  else
    none

/-- generate_response: timeout and non-200 raise; a 200 response yields the
message content together with the token count. -/
def generate_response (outcome : HttpOutcome) : Except String (String × Option Nat) :=
  match outcome with
  | HttpOutcome.timeout => Except.error "generation timeout"
  | HttpOutcome.response status p =>
      if status ≠ 200 then
        Except.error ("LLM returned status " ++ toString status)
      else
        Except.ok (p.content, tokensOf p)

/-- get_first_opinion (lines 141-154): wrap a successful generation into an
opinion owned by the queried node. -/
def get_first_opinion (node : LLMNode) (outcome : HttpOutcome) : Except String FirstOpinionResponse :=
  match generate_response outcome with
  | Except.error e => Except.error e
  | Except.ok tr =>
      Except.ok { llm_name := node.name, model := node.model,
                  response := tr.1, token_count := tr.2 }

/-- get_all_first_opinions (lines 156-167): one concurrent job per council
member; failed jobs are dropped, order of the member list is preserved. -/
def get_all_first_opinions (cfg : CouncilConfig) (outcomes : List HttpOutcome) :
    List FirstOpinionResponse :=
  ((cfg.council_members.zip outcomes).map fun p => get_first_opinion p.1 p.2).filterMap
    fun r => match r with
      | Except.ok a => some a
      | Except.error _ => none

/-! ## Review parser (llm_service.py lines 206-261)

The two regular expressions of _parse_review_response are embedded as
deterministic scanners.  Both patterns are of the shape
label .*? literal ... with IGNORECASE and DOTALL; for such patterns the
leftmost regex match is obtained by taking the first case-insensitive
occurrence of each literal in turn, so the scanners below compute exactly
the captured groups of re.search. -/

/-- Suffix of the haystack right after the first case-insensitive occurrence
of the needle; none when the needle does not occur. -/
def findCI (needle : List Char) : List Char → Option (List Char)
  | [] => if needle.isEmpty then some [] else none
  | c :: rest =>
      if (needle.map Char.toLower).isPrefixOf ((c :: rest).map Char.toLower) then
        some ((c :: rest).drop needle.length)
      else
        findCI needle rest

/-- Suffix starting at the first decimal digit; none when no digit occurs. -/
def skipToDigit : List Char → Option (List Char)
  | [] => none
  | c :: rest => if c.isDigit then some (c :: rest) else skipToDigit rest

/-- Numeric value of a digit run, as computed by Python int(). -/
def natOfDigits (ds : List Char) : Nat :=
  ds.foldl (fun n c => 10 * n + (c.toNat - 48)) 0

/-- Captured groups of the score pattern
label .*? Accuracy .*? digits .*? Insight .*? digits
(IGNORECASE, DOTALL): the two maximal digit runs, or none when the pattern
does not match anywhere in the transcript. -/
def findScores (label : List Char) (text : List Char) : Option (Nat × Nat) := do
  let s1 ← findCI label text
  let s2 ← findCI ([ 'a', 'c', 'c', 'u', 'r', 'a', 'c', 'y' ]) s1
  let s3 ← skipToDigit s2
  let d1 := s3.takeWhile Char.isDigit
  let s4 := s3.dropWhile Char.isDigit
  let s5 ← findCI ([ 'i', 'n', 's', 'i', 'g', 'h', 't' ]) s4
  let s6 ← skipToDigit s5
  let d2 := s6.takeWhile Char.isDigit
  pure (natOfDigits d1, natOfDigits d2)

def isColonOrSpace (c : Char) : Bool :=
  c == ':' || isPySpace c

/-- Scan for the reasoning clause: a case-insensitive occurrence of the
word Reasoning followed by at least one colon or whitespace character and a
nonempty run of characters other than an opening square bracket (the
captured group of the reasoning pattern, with the one-character give-back
the backtracking engine performs when the run of separators is followed
directly by an opening bracket). -/
def reasoningScan : List Char → Option (List Char)
  | [] => none
  | c :: rest =>
      if ([ 'r', 'e', 'a', 's', 'o', 'n', 'i', 'n', 'g' ]).isPrefixOf ((c :: rest).map Char.toLower) then
        let p := (c :: rest).drop 9
        let run := p.takeWhile isColonOrSpace
        let after := p.dropWhile isColonOrSpace
        if run.isEmpty then
          reasoningScan rest
        else
          let grp := after.takeWhile fun ch => ch != '['
          if grp.isEmpty then
            if 2 ≤ run.length then some (run.drop (run.length - 1)) else reasoningScan rest
          else
            some grp
      else
        reasoningScan rest

/-- Captured group of the reasoning pattern
label .*? Reasoning [colon or space]+ (non-bracket characters)
or none when it matches nowhere. -/
def findReasoning (label : List Char) (text : List Char) : Option (List Char) :=
  (findCI label text).bind reasoningScan

def noReasoningMsg : String := "No detailed reasoning extracted."

/-- Loop body of _parse_review_response for one pool entry
(anon_name, response_text, original_name): clamp parsed scores into 1..10,
default both to 7 when the score pattern is absent, extract the reasoning
clause stripped and truncated to 500 characters, with a placeholder when
absent.  The except branch of the source loop is unreachable (the digit
runs always convert and the clamped fields always satisfy the model
validators), so the body is total. -/
def scoreEntry (reviewer_name : String) (review_text : String)
    (entry : String × String × String) : ReviewScore :=
  let anon_name := entry.1
  let original_name := entry.2.2
  let si := findScores anon_name.toList review_text.toList
  let acc := match si with
    | some ai => min 10 (max 1 ai.1)
    | none => 7
  let ins := match si with
    | some ai => min 10 (max 1 ai.2)
    | none => 7
  let reasoning := match findReasoning anon_name.toList review_text.toList with
    | some g => String.mk ((pyStripList g).take 500)
    | none => noReasoningMsg
  { reviewer_name := reviewer_name, reviewed_name := anon_name,
    original_name := original_name, score := (acc + ins) / 2,
    reasoning := reasoning, accuracy_score := acc, insight_score := ins }

/-- _parse_review_response (lines 206-261): one ReviewScore per pool entry,
in pool order. -/
def parseReviewResponse (reviewer_name : String) (review_text : String)
    (pool : List (String × String × String)) : List ReviewScore :=
  pool.map (scoreEntry reviewer_name review_text)

/-! ## Review aggregation (llm_service.py lines 170-301) -/

/-- Anonymization label for position i of the phase-1 opinion list:
Response A, Response B, ... (chr(65 + i)). -/
def anonLabel (i : Nat) : String :=
  "Response " ++ String.singleton (Char.ofNat (65 + i))

/-- Anonymized bundle (lines 271-274): label in list order, response text,
owning node name. -/
def anonBundle (ops : List FirstOpinionResponse) : List (String × String × String) :=
  ops.enum.map fun ie => (anonLabel ie.1, ie.2.response, ie.2.llm_name)

/-- get_review (lines 170-204): filter out the candidate authored by the
excluded node; an empty pool contributes no scores and makes no node call;
a failed generation is swallowed and contributes no scores.  The second
component counts generate calls issued. -/
def get_review (reviewer_name : String) (outcome : HttpOutcome)
    (responses : List (String × String × String)) (exclude_name : String) :
    List ReviewScore × Nat :=
  let pool := responses.filter fun r => r.2.2 != exclude_name
  if pool.isEmpty then
    ([], 0)
  else
    match generate_response outcome with
    | Except.error _ => ([], 1)
    | Except.ok raw => (parseReviewResponse reviewer_name raw.1 pool, 1)

/-- Insertion step of the score buckets (line 298): dict.setdefault followed
by append, keyed by owning node name, preserving first-seen key order. -/
def addScore : List (String × List Nat) → String → Nat → List (String × List Nat)
  | [], name, v => [(name, [v])]
  | (n, vs) :: rest, name, v =>
      if n = name then (n, vs ++ [v]) :: rest else (n, vs) :: addScore rest name v

/-- Buckets of composite scores grouped by owning node name (lines 296-298). -/
def buckets (scores : List ReviewScore) : List (String × List Nat) :=
  scores.foldl (fun bs sc => addScore bs sc.original_name sc.score) []

/-- Ranking table (line 300): average of each bucket.  The 0.0 fallback of
the source comprehension is kept although no bucket is ever empty. -/
def averages (scores : List ReviewScore) : List (String × ℚ) :=
  (buckets scores).map fun nv =>
    (nv.1, if nv.2.isEmpty then (0 : ℚ) else (nv.2.sum : ℚ) / (nv.2.length : ℚ))

/-- First-match lookup in an association list (Python dict access on the
insertion-ordered pairs). -/
def lookupName (name : String) : List (String × α) → Option α
  | [] => none
  | (n, v) :: rest => if n = name then some v else lookupName name rest

/-- get_all_reviews (lines 263-301): anonymize in opinion-list order, fan
one review job out per council member with that member excluded, flatten
the collected scores, and aggregate the ranking table.  Returns
(all scores, ranking table, number of generate calls issued). -/
def get_all_reviews (cfg : CouncilConfig) (outcomes : List HttpOutcome)
    (first_opinions : List FirstOpinionResponse) :
    List ReviewScore × List (String × ℚ) × Nat :=
  let anon_bundle := anonBundle first_opinions
  let results := (cfg.council_members.zip outcomes).map fun p =>
    get_review p.1.name p.2 anon_bundle p.1.name
  let all_scores := (results.map Prod.fst).flatten
  let calls := (results.map Prod.snd).sum
  (all_scores, averages all_scores, calls)

/-! ## Chairman synthesizer (llm_service.py lines 304-413)

Prompt assembly (lines 313-345) is pure string formatting no claim
mentions and is not modelled.  The remote branch after the configuration
check (HTTP POST, strict parse, alias fallback) is abstracted into an
environment outcome: none for transport or protocol failure, some
synthesis for a successfully parsed reply. -/

def remoteCfgErrMsg : String :=
  "chairman.mode=remote but chairman.remote.base_url is missing in config.yaml"

def noChairmanMsg : String := "No chairman configured"

def synthesisFallbackMsg : String := "Synthesis completed based on council inputs."

def finalAnswerMarker : String := "FINAL ANSWER:"

def reasoningSummaryMarker : String := "REASONING SUMMARY:"

/-- Marker split of the local chairman reply (lines 399-405): when the
final-answer marker occurs, part before the reasoning marker with the
final-answer marker removed and stripped, and the stripped part after the
reasoning marker when present. -/
def parseChairmanText (text : String) : String × String :=
  if 1 < (text.splitOn finalAnswerMarker).length then
    let parts := text.splitOn reasoningSummaryMarker
    let final := pyStripStr ((parts.headD "").replace finalAnswerMarker "")
    let reason := if 1 < parts.length then pyStripStr ((parts.drop 1).headD "") else ""
    (final, reason)
  else
    (text, "")

/-- get_chairman_synthesis (lines 304-413), after prompt assembly: mode
normalization, the remote-mode configuration check raised before any HTTP
request, the remote call, or the local chairman call with marker parsing.
The second component counts HTTP requests issued by this call. -/
def get_chairman_synthesis (cfg : CouncilConfig) (chairLocal : HttpOutcome)
    (chairRemote : Option ChairmanSynthesis) : Except String ChairmanSynthesis × Nat :=
  let mode := pyStripStr (pyLowerStr (pyOrStr cfg.chairman_mode "local"))
  if mode = "remote" then
    if pyFalsyOpt cfg.chairman_remote_base_url then
      (Except.error remoteCfgErrMsg, 0)
    else
      match chairRemote with
      | none => (Except.error "Remote chairman call failed", 1)
      | some syn => (Except.ok syn, 1)
  else
    match cfg.chairman with
    | none => (Except.error noChairmanMsg, 0)
    | some chair =>
        match generate_response chairLocal with
        | Except.error e => (Except.error e, 1)
        | Except.ok tr =>
            let fr := parseChairmanText tr.1
            (Except.ok { chairman_name := chair.name, model := chair.model,
                         final_response := fr.1,
                         reasoning_summary := pyOrStr fr.2 synthesisFallbackMsg }, 1)

/-! ## Orchestration pipeline (backend/council.py)

The environment fixes the outcome of every node call a run can issue.
Stage 1 and stage 2 are total as in the source (the concurrent joins
collect outcomes and never raise); stage 3 can fail through the chairman
call, and stages 2 and 3 can fail through their stage precondition. -/

structure Env where
  opinionOutcomes : List HttpOutcome
  reviewOutcomes : List HttpOutcome
  chairLocal : HttpOutcome
  chairRemote : Option ChairmanSynthesis
deriving DecidableEq, Repr

/-- Result of one stage method: the session after all mutations the stage
performed before returning or raising, the raised message when any, the
stage values assigned during the call in order, and the number of node
calls issued for the phase. -/
structure StageOut where
  session : CouncilSession
  result : Except String Unit
  stagesSet : List CouncilStage
  calls : Nat
deriving Repr

def stage2PrecondMsg : String := "Stage 2 requires stage 1 outputs (first_opinions)."

def stage3PrecondMsg : String := "Stage 3 requires stage 1 outputs (first_opinions)."

/-- create_session (lines 19-23); the uuid fragment is abstract. -/
def createSession (query : String) : CouncilSession :=
  { session_id := "sid", query := query, stage := CouncilStage.PENDING,
    first_opinions := [], review_results := none, chairman_synthesis := none,
    error_message := none }

/-- _stage_first_opinions (lines 40-48): set the stage, collect the
surviving opinions; never raises. -/
def stageFirstOpinions (cfg : CouncilConfig) (env : Env) (s : CouncilSession) : StageOut :=
  let s1 := { s with stage := CouncilStage.FIRST_OPINIONS }
  { session := { s1 with first_opinions := get_all_first_opinions cfg env.opinionOutcomes },
    result := Except.ok (), stagesSet := [CouncilStage.FIRST_OPINIONS],
    calls := cfg.council_members.length }

/-- _stage_reviews (lines 50-61): stage precondition raised before any node
call, then review fan-out and aggregation. -/
def stageReviews (cfg : CouncilConfig) (env : Env) (s : CouncilSession) : StageOut :=
  if s.first_opinions.isEmpty then
    { session := s, result := Except.error stage2PrecondMsg, stagesSet := [], calls := 0 }
  else
    let s1 := { s with stage := CouncilStage.REVIEW_RANKING }
    let res := get_all_reviews cfg env.reviewOutcomes s1.first_opinions
    { session := { s1 with review_results := some { reviews := res.1, rankings := res.2.1 } },
      result := Except.ok (), stagesSet := [CouncilStage.REVIEW_RANKING],
      calls := res.2.2 }

/-- _stage_chairman (lines 63-80): stage precondition raised before any
call, then the chairman synthesis; on success the session is stamped
COMPLETED. -/
def stageChairman (cfg : CouncilConfig) (env : Env) (s : CouncilSession) : StageOut :=
  if s.first_opinions.isEmpty then
    { session := s, result := Except.error stage3PrecondMsg, stagesSet := [], calls := 0 }
  else
    let s1 := { s with stage := CouncilStage.CHAIRMAN_SYNTHESIS }
    match get_chairman_synthesis cfg env.chairLocal env.chairRemote with
    | (Except.error e, n) =>
        { session := s1, result := Except.error e,
          stagesSet := [CouncilStage.CHAIRMAN_SYNTHESIS], calls := n }
    | (Except.ok syn, n) =>
        let s2 := { s1 with chairman_synthesis := some syn, stage := CouncilStage.COMPLETED }
        { session := s2, result := Except.ok (),
          stagesSet := [CouncilStage.CHAIRMAN_SYNTHESIS, CouncilStage.COMPLETED], calls := n }

structure FullOut where
  session : CouncilSession
  raised : Option String
  trace : List CouncilStage
  calls2 : Nat
  calls3 : Nat
deriving DecidableEq, Repr

structure StreamOut where
  session : CouncilSession
  snapshots : List CouncilSession
  trace : List CouncilStage
  calls2 : Nat
  calls3 : Nat
deriving DecidableEq, Repr

/-- run_full_council (lines 83-106): the three stages in order; on a raise
the session is stamped ERROR with the message and the exception propagates
to the caller (field raised).  The trace records every value the stage
field takes on, starting from PENDING at creation. -/
def run_full_council (cfg : CouncilConfig) (env : Env) (query : String) : FullOut :=
  let s0 := createSession query
  let o1 := stageFirstOpinions cfg env s0
  let r2 := stageReviews cfg env o1.session
  match r2.result with
  | Except.error e =>
      { session := { r2.session with stage := CouncilStage.ERROR, error_message := some e },
        raised := some e,
        trace := CouncilStage.PENDING :: (o1.stagesSet ++ r2.stagesSet ++ [CouncilStage.ERROR]),
        calls2 := r2.calls, calls3 := 0 }
  | Except.ok _ =>
      let r3 := stageChairman cfg env r2.session
      match r3.result with
      | Except.error e =>
          { session := { r3.session with stage := CouncilStage.ERROR, error_message := some e },
            raised := some e,
            trace := CouncilStage.PENDING ::
              (o1.stagesSet ++ r2.stagesSet ++ r3.stagesSet ++ [CouncilStage.ERROR]),
            calls2 := r2.calls, calls3 := r3.calls }
      | Except.ok _ =>
          { session := r3.session, raised := none,
            trace := CouncilStage.PENDING :: (o1.stagesSet ++ r2.stagesSet ++ r3.stagesSet),
            calls2 := r2.calls, calls3 := r3.calls }

/-- run_council_streaming (lines 108-134): same stage sequence, yielding
the session snapshot after creation and after every stage; a failure is
swallowed and one final ERROR snapshot is yielded, so no exception crosses
the yield boundary (the function is total and has no raised field). -/
def run_council_streaming (cfg : CouncilConfig) (env : Env) (query : String) : StreamOut :=
  let s0 := createSession query
  let o1 := stageFirstOpinions cfg env s0
  let r2 := stageReviews cfg env o1.session
  match r2.result with
  | Except.error e =>
      let sErr := { r2.session with stage := CouncilStage.ERROR, error_message := some e }
      { session := sErr, snapshots := [s0, o1.session, sErr],
        trace := CouncilStage.PENDING :: (o1.stagesSet ++ r2.stagesSet ++ [CouncilStage.ERROR]),
        calls2 := r2.calls, calls3 := 0 }
  | Except.ok _ =>
      let r3 := stageChairman cfg env r2.session
      match r3.result with
      | Except.error e =>
          let sErr := { r3.session with stage := CouncilStage.ERROR, error_message := some e }
          { session := sErr, snapshots := [s0, o1.session, r2.session, sErr],
            trace := CouncilStage.PENDING ::
              (o1.stagesSet ++ r2.stagesSet ++ r3.stagesSet ++ [CouncilStage.ERROR]),
            calls2 := r2.calls, calls3 := r3.calls }
      | Except.ok _ =>
          { session := r3.session, snapshots := [s0, o1.session, r2.session, r3.session],
            trace := CouncilStage.PENDING :: (o1.stagesSet ++ r2.stagesSet ++ r3.stagesSet),
            calls2 := r2.calls, calls3 := r3.calls }

/-! ## Statement-side definitions -/

/-- Token accounting as the specification words it: the completion count
when reported; else, when both a prompt count and a completion count are
reported, their sum; else absent. -/
def tokensClaimed (p : ChatPayload) : Option Nat :=
  match p.eval_count with
  | some c => some c
  | none =>
      match p.prompt_eval_count, p.eval_count with
      | some pc, some c => some (pc + c)
      | _, _ => none

/-- Composite scores owned by a given name, in collection order. -/
def scoresFor (name : String) (scores : List ReviewScore) : List Nat :=
  (scores.filter fun s => s.original_name == name).map fun s => s.score

/-- The linear stage order of the pipeline. -/
def stageOrder : List CouncilStage :=
  [CouncilStage.PENDING, CouncilStage.FIRST_OPINIONS, CouncilStage.REVIEW_RANKING,
   CouncilStage.CHAIRMAN_SYNTHESIS, CouncilStage.COMPLETED]

/-- A well-formed stage trace: a prefix of the linear order, or such a
prefix followed by one final ERROR. -/
def stageTraceOK (t : List CouncilStage) : Prop :=
  t <+: stageOrder ∨ ∃ p, p <+: stageOrder ∧ t = p ++ [CouncilStage.ERROR]

/-! ## Concrete inputs used by witnesses and counterexamples -/

/-- A one-entry review pool. -/
def poolOne : List (String × String × String) := [("Response A", "text", "NodeX")]

/-- A single-member council configuration. -/
def cfgSolo : CouncilConfig :=
  { council_members := [{ name := "Counselor-Alpha", model := "llama3.2", is_chairman := false }],
    chairman := some { name := "Chairman", model := "mistral", is_chairman := true },
    chairman_mode := "local", chairman_remote_base_url := none }

/-- The phase-1 opinion of the single member of cfgSolo. -/
def opsSolo : List FirstOpinionResponse :=
  [{ llm_name := "Counselor-Alpha", model := "llama3.2", response := "four", token_count := none }]

/-! ## Theorems -/

theorem tokensOf_eq_tokensClaimed (p : ChatPayload) : tokensOf p = tokensClaimed p := by
  cases hev : p.eval_count <;> cases hpc : p.prompt_eval_count <;>
    simp [tokensOf, tokensClaimed, hev, hpc]

/-- C1: for every successful generate reply payload, the token count
attached to the returned opinion is the completion-token count when the
backend reports one; else, when it reports both a prompt-token count and a
completion-token count, their sum; else absent (the middle case is vacuous,
in the code as in the claim). -/
theorem token_count_of_opinion (node : LLMNode) (p : ChatPayload) :
    get_first_opinion node (HttpOutcome.response 200 p) =
      Except.ok { llm_name := node.name, model := node.model,
                  response := p.content, token_count := tokensClaimed p } := by
  simp [get_first_opinion, generate_response, tokensOf_eq_tokensClaimed]

/-- C6: every ReviewScore produced by the review parser has accuracy and
insight clamped into 1..10 and composite score equal to the floor of half
their sum. -/
theorem review_score_bounds (r text : String) (pool : List (String × String × String))
    (s : ReviewScore) (hs : s ∈ parseReviewResponse r text pool) :
    1 ≤ s.accuracy_score ∧ s.accuracy_score ≤ 10 ∧
    1 ≤ s.insight_score ∧ s.insight_score ≤ 10 ∧
    s.score = (s.accuracy_score + s.insight_score) / 2 := by
  rcases List.mem_map.mp hs with ⟨e, _, rfl⟩
  cases h : findScores e.1.toList text.toList with
  | none =>
      simp only [scoreEntry, h]
      norm_num
  | some ai =>
      simp only [scoreEntry, h]
      exact ⟨le_min (by norm_num) (le_max_left 1 _), min_le_left _ _,
             le_min (by norm_num) (le_max_left 1 _), min_le_left _ _, trivial⟩

/-- Witness for C6 at a concrete transcript without the scoring template. -/
theorem review_score_bounds_witness :
    (scoreEntry "Rev" "hello" ("Response A", "text", "NodeX")) ∈
        parseReviewResponse "Rev" "hello" poolOne ∧
      (1 ≤ (scoreEntry "Rev" "hello" ("Response A", "text", "NodeX")).accuracy_score ∧
       (scoreEntry "Rev" "hello" ("Response A", "text", "NodeX")).accuracy_score ≤ 10 ∧
       1 ≤ (scoreEntry "Rev" "hello" ("Response A", "text", "NodeX")).insight_score ∧
       (scoreEntry "Rev" "hello" ("Response A", "text", "NodeX")).insight_score ≤ 10 ∧
       (scoreEntry "Rev" "hello" ("Response A", "text", "NodeX")).score =
         ((scoreEntry "Rev" "hello" ("Response A", "text", "NodeX")).accuracy_score +
          (scoreEntry "Rev" "hello" ("Response A", "text", "NodeX")).insight_score) / 2) :=
  ⟨by simp [poolOne, parseReviewResponse],
   review_score_bounds "Rev" "hello" poolOne _ (by simp [poolOne, parseReviewResponse])⟩

/-- C5: when the transcript contains no match of a pool label followed by
an accuracy figure and an insight figure, the parser still returns a
ReviewScore for that label, with both scores defaulted to 7, and with the
fixed placeholder reasoning string when no reasoning clause is found
either; the parser is a total function and never raises. -/
theorem parse_missing_template_defaults (r text : String)
    (pool : List (String × String × String)) (e : String × String × String)
    (he : e ∈ pool) (hm : findScores e.1.toList text.toList = none) :
    ∃ s ∈ parseReviewResponse r text pool,
      s.reviewed_name = e.1 ∧ s.accuracy_score = 7 ∧ s.insight_score = 7 ∧
      (findReasoning e.1.toList text.toList = none → s.reasoning = noReasoningMsg) := by
  refine ⟨scoreEntry r text e, List.mem_map_of_mem _ he, rfl, ?_, ?_, ?_⟩
  · simp only [scoreEntry, hm]
  · simp only [scoreEntry, hm]
  · intro hr
    simp only [scoreEntry, hr]

/-- Witness for C5 on a transcript containing neither the scoring template
nor a reasoning clause. -/
theorem parse_missing_template_defaults_witness :
    (("Response A", "text", "NodeX") ∈ poolOne ∧
      findScores ("Response A".toList) ("hello".toList) = none) ∧
    ∃ s ∈ parseReviewResponse "Rev" "hello" poolOne,
      s.reviewed_name = "Response A" ∧ s.accuracy_score = 7 ∧ s.insight_score = 7 ∧
      (findReasoning ("Response A".toList) ("hello".toList) = none → s.reasoning = noReasoningMsg) :=
  ⟨⟨by simp [poolOne], by decide⟩,
   parse_missing_template_defaults "Rev" "hello" poolOne ("Response A", "text", "NodeX")
     (by simp [poolOne]) (by decide)⟩

/-- C10: the parser returns exactly one ReviewScore per pool entry, in pool
order, with the label and owner copied from the entry and the reviewer name
copied from the caller, whatever the transcript says. -/
theorem parse_output_shape (r text : String) (pool : List (String × String × String))
    (hpool : pool ≠ []) :
    (parseReviewResponse r text pool).length = pool.length ∧
    ∀ (k : Nat) (e : String × String × String), pool[k]? = some e →
      ∃ s : ReviewScore, (parseReviewResponse r text pool)[k]? = some s ∧
        s.reviewer_name = r ∧ s.reviewed_name = e.1 ∧ s.original_name = e.2.2 := by
  constructor
  · simp [parseReviewResponse]
  · intro k e hk
    refine ⟨scoreEntry r text e, ?_, rfl, rfl, rfl⟩
    simp [parseReviewResponse, List.getElem?_map, hk]

theorem scoresFor_cons (nm : String) (sc : ReviewScore) (rest : List ReviewScore) :
    scoresFor nm (sc :: rest) =
      if sc.original_name = nm then sc.score :: scoresFor nm rest else scoresFor nm rest := by
  by_cases h : sc.original_name = nm <;> simp [scoresFor, List.filter_cons, h]

theorem lookupName_addScore (nm nm2 : String) (v : Nat) :
    ∀ bs : List (String × List Nat),
      lookupName nm2 (addScore bs nm v) =
        if nm2 = nm then some (((lookupName nm bs).getD []) ++ [v])
        else lookupName nm2 bs := by
  intro bs
  induction bs with
  | nil =>
      by_cases h : nm2 = nm
      · subst h
        simp [addScore, lookupName]
      · simp [addScore, lookupName, h, if_neg (fun hh => h (Eq.symm hh))]
  | cons head rest ih =>
      obtain ⟨n, vs⟩ := head
      by_cases h1 : n = nm
      · subst h1
        by_cases h2 : nm2 = n
        · subst h2
          simp [addScore, lookupName]
        · simp [addScore, lookupName, h2, if_neg (fun hh => h2 (Eq.symm hh))]
      · by_cases h2 : n = nm2
        · subst h2
          simp [addScore, lookupName, h1, if_neg (fun hh => h1 (Eq.symm hh)),
            if_neg (fun hh => h1 hh)]
        · simp [addScore, lookupName, h1, h2, ih]

theorem lookupName_foldl_addScore (nm : String) :
    ∀ (scores : List ReviewScore) (acc : List (String × List Nat)),
      lookupName nm (scores.foldl (fun bs sc => addScore bs sc.original_name sc.score) acc) =
        match lookupName nm acc with
        | some vs => some (vs ++ scoresFor nm scores)
        | none =>
            if (scoresFor nm scores).isEmpty then none else some (scoresFor nm scores) := by
  intro scores
  induction scores with
  | nil =>
      intro acc
      cases h : lookupName nm acc <;> simp [scoresFor, h]
  | cons sc rest ih =>
      intro acc
      rw [List.foldl_cons, ih, lookupName_addScore, scoresFor_cons]
      by_cases h1 : nm = sc.original_name
      · rw [if_pos h1, ← h1, if_pos rfl]
        cases h2 : lookupName nm acc with
        | none => simp [h2]
        | some vs => simp [h2, List.append_assoc]
      · rw [if_neg h1, if_neg (fun hh => h1 (Eq.symm hh))]

theorem lookupName_buckets (nm : String) (scores : List ReviewScore) :
    lookupName nm (buckets scores) =
      if (scoresFor nm scores).isEmpty then none else some (scoresFor nm scores) := by
  have h := lookupName_foldl_addScore nm scores []
  simpa [buckets, lookupName] using h

theorem lookupName_map_value (nm : String) (g : List Nat → ℚ) :
    ∀ l : List (String × List Nat),
      lookupName nm (l.map fun nv => (nv.1, g nv.2)) = (lookupName nm l).map g := by
  intro l
  induction l with
  | nil => simp [lookupName]
  | cons head rest ih =>
      obtain ⟨n, vs⟩ := head
      by_cases h : n = nm <;> simp [lookupName, h, ih]

/-- C2 (amended): the ranking table maps each candidate that received at
least one composite score to the arithmetic mean of those scores; a
candidate that received no score has no entry at all in the ranking table
(the 0.0 default branch of the source comprehension is unreachable because
buckets only exist for scored candidates). -/
theorem ranking_mean_or_absent (scores : List ReviewScore) (name : String) :
    lookupName name (averages scores) =
      if (scoresFor name scores).isEmpty then none
      else some (((scoresFor name scores).sum : ℚ) / ((scoresFor name scores).length : ℚ)) := by
  have h := lookupName_map_value name
    (fun vs => if vs.isEmpty then (0 : ℚ) else (vs.sum : ℚ) / (vs.length : ℚ)) (buckets scores)
  rw [show averages scores =
        (buckets scores).map (fun nv => (nv.1,
          (fun vs => if vs.isEmpty then (0 : ℚ) else (vs.sum : ℚ) / (vs.length : ℚ)) nv.2))
      from rfl, h, lookupName_buckets]
  by_cases he : (scoresFor name scores).isEmpty = true
  · simp [he]
  · rw [Bool.not_eq_true] at he
    simp [he]
    intro hnil
    rw [hnil] at he
    simp at he

/-- C2 counterexample: with a single-member council the sole candidate
receives no review score (the only reviewer is excluded from reviewing its
own answer), yet the ranking table has no entry for it at all; the claimed
0.0 entry does not exist. -/
theorem ranking_zero_default_cex :
    (get_all_reviews cfgSolo [HttpOutcome.response 200
        { content := "irrelevant", eval_count := none, prompt_eval_count := none }] opsSolo).1 = [] ∧
    lookupName "Counselor-Alpha"
      (get_all_reviews cfgSolo [HttpOutcome.response 200
        { content := "irrelevant", eval_count := none, prompt_eval_count := none }] opsSolo).2.1 = none ∧
    lookupName "Counselor-Alpha"
      (get_all_reviews cfgSolo [HttpOutcome.response 200
        { content := "irrelevant", eval_count := none, prompt_eval_count := none }] opsSolo).2.1 ≠
      some (0 : ℚ) := by
  refine ⟨rfl, rfl, ?_⟩
  intro h
  rw [show lookupName "Counselor-Alpha"
      (get_all_reviews cfgSolo [HttpOutcome.response 200
        { content := "irrelevant", eval_count := none, prompt_eval_count := none }] opsSolo).2.1 =
      none from rfl] at h
  exact Option.noConfusion h

/-- Witness for C10 on a singleton pool. -/
theorem parse_output_shape_witness :
    (poolOne ≠ [] ∧ poolOne[0]? = some ("Response A", "text", "NodeX")) ∧
    ∃ s : ReviewScore, (parseReviewResponse "Rev" "raw" poolOne)[0]? = some s ∧
      s.reviewer_name = "Rev" ∧ s.reviewed_name = "Response A" ∧ s.original_name = "NodeX" :=
  ⟨⟨by simp [poolOne], by simp [poolOne]⟩,
   (parse_output_shape "Rev" "raw" poolOne (by simp [poolOne])).2 0
     ("Response A", "text", "NodeX") (by simp [poolOne])⟩

theorem anonLabel_inj26 : ∀ i < 26, ∀ j < 26, anonLabel i = anonLabel j → i = j := by
  decide

theorem mem_get_review (rn : String) (o : HttpOutcome)
    (rs : List (String × String × String)) (ex : String) (s : ReviewScore)
    (hs : s ∈ (get_review rn o rs ex).1) :
    s.reviewer_name = rn ∧ s.original_name ≠ ex := by
  simp only [get_review] at hs
  by_cases hp : (rs.filter fun r => r.2.2 != ex).isEmpty
  · simp [hp] at hs
  · simp only [hp, if_neg, Bool.false_eq_true] at hs
    rw [if_neg (by simp [hp])] at hs
    rcases hgen : generate_response o with e | raw
    · rw [hgen] at hs
      simp at hs
    · rw [hgen] at hs
      simp only [] at hs
      rcases List.mem_map.mp hs with ⟨entry, hentry, rfl⟩
      have hfil := (List.mem_filter.mp hentry).2
      refine ⟨rfl, ?_⟩
      have : entry.2.2 ≠ ex := by
        simpa using hfil
      simpa [scoreEntry] using this

/-- C8: within one review round the anonymized labels are assigned in the
fixed order of the phase-1 opinion list (label i is Response chr(65+i),
a function of the position only, hence independent of arrival timing), the
label list and the owner list are duplicate-free and in bijection
(assuming the opinion owners are distinct and at most 26 opinions, the
label alphabet of the claim), and no ReviewScore of the round has its
reviewer equal to its owner. -/
theorem anonymization_bijection_no_self_review
    (ops : List FirstOpinionResponse) (h26 : ops.length ≤ 26)
    (howners : (ops.map fun o => o.llm_name).Nodup) :
    ((anonBundle ops).map (fun e => e.1) = (List.range ops.length).map anonLabel ∧
     ((anonBundle ops).map fun e => e.1).Nodup ∧
     (anonBundle ops).map (fun e => e.2.2) = ops.map (fun o => o.llm_name) ∧
     ((anonBundle ops).map fun e => e.2.2).Nodup) ∧
    ∀ (cfg : CouncilConfig) (outs : List HttpOutcome) (s : ReviewScore),
      s ∈ (get_all_reviews cfg outs ops).1 → s.reviewer_name ≠ s.original_name := by
  have hlab : (anonBundle ops).map (fun e => e.1) = (List.range ops.length).map anonLabel := by
    simp only [anonBundle, List.map_map]
    rw [show ((fun e : String × String × String => e.1) ∘
          fun ie : Nat × FirstOpinionResponse =>
            (anonLabel ie.1, ie.2.response, ie.2.llm_name)) = (anonLabel ∘ Prod.fst)
        from rfl]
    rw [← List.map_map, List.enum_map_fst]
  have hown : (anonBundle ops).map (fun e => e.2.2) = ops.map (fun o => o.llm_name) := by
    simp only [anonBundle, List.map_map]
    rw [show ((fun e : String × String × String => e.2.2) ∘
          fun ie : Nat × FirstOpinionResponse =>
            (anonLabel ie.1, ie.2.response, ie.2.llm_name)) =
        ((fun o : FirstOpinionResponse => o.llm_name) ∘ Prod.snd)
        from rfl]
    rw [← List.map_map, List.enum_map_snd]
  refine ⟨⟨hlab, ?_, hown, ?_⟩, ?_⟩
  · rw [hlab]
    refine List.Nodup.map_on ?_ (List.nodup_range _)
    intro x hx y hy hxy
    exact anonLabel_inj26 x (lt_of_lt_of_le (List.mem_range.mp hx) h26)
      y (lt_of_lt_of_le (List.mem_range.mp hy) h26) hxy
  · rw [hown]
    exact howners
  · intro cfg outs s hs
    simp only [get_all_reviews, List.mem_flatten, List.mem_map] at hs
    rcases hs with ⟨l, ⟨pr, ⟨p, _, rfl⟩, rfl⟩, hsl⟩
    have h := mem_get_review p.1.name p.2 (anonBundle ops) p.1.name s hsl
    intro hcontra
    exact h.2 (hcontra ▸ h.1)

/-- Witness for C8 with two distinct opinion owners. -/
theorem anonymization_bijection_no_self_review_witness :
    (([{ llm_name := "A", model := "m", response := "ra", token_count := none },
       { llm_name := "B", model := "m", response := "rb", token_count := none }] :
        List FirstOpinionResponse).length ≤ 26 ∧
     (([{ llm_name := "A", model := "m", response := "ra", token_count := none },
        { llm_name := "B", model := "m", response := "rb", token_count := none }] :
         List FirstOpinionResponse).map fun o => o.llm_name).Nodup) ∧
    ((anonBundle [{ llm_name := "A", model := "m", response := "ra", token_count := none },
                  { llm_name := "B", model := "m", response := "rb", token_count := none }]).map
        (fun e => e.1) =
      (List.range 2).map anonLabel) := by
  refine ⟨⟨by decide, by decide⟩, ?_⟩
  exact (anonymization_bijection_no_self_review
    [{ llm_name := "A", model := "m", response := "ra", token_count := none },
     { llm_name := "B", model := "m", response := "rb", token_count := none }]
    (by decide) (by decide)).1.1

/-- C7: remote chairman mode with a missing (or empty) base URL fails with
the configuration error and issues zero HTTP requests (the call counter of
the model counts every HTTP request the synthesis call would issue). -/
theorem remote_chairman_missing_base_url (cfg : CouncilConfig)
    (chairLocal : HttpOutcome) (chairRemote : Option ChairmanSynthesis)
    (hmode : pyStripStr (pyLowerStr (pyOrStr cfg.chairman_mode "local")) = "remote")
    (hurl : pyFalsyOpt cfg.chairman_remote_base_url = true) :
    get_chairman_synthesis cfg chairLocal chairRemote = (Except.error remoteCfgErrMsg, 0) := by
  simp [get_chairman_synthesis, hmode, hurl]

/-- A remote-mode configuration with no base URL. -/
def cfgRemoteNoUrl : CouncilConfig :=
  { council_members := [], chairman := none, chairman_mode := "remote",
    chairman_remote_base_url := none }

/-- Witness for C7 at the concrete remote-mode configuration without URL. -/
theorem remote_chairman_missing_base_url_witness :
    (pyStripStr (pyLowerStr (pyOrStr cfgRemoteNoUrl.chairman_mode "local")) = "remote" ∧
     pyFalsyOpt cfgRemoteNoUrl.chairman_remote_base_url = true) ∧
    get_chairman_synthesis cfgRemoteNoUrl HttpOutcome.timeout none =
      (Except.error remoteCfgErrMsg, 0) :=
  ⟨⟨by decide, rfl⟩,
   remote_chairman_missing_base_url cfgRemoteNoUrl HttpOutcome.timeout none (by decide) rfl⟩

theorem traceOK_success :
    stageTraceOK [CouncilStage.PENDING, CouncilStage.FIRST_OPINIONS,
      CouncilStage.REVIEW_RANKING, CouncilStage.CHAIRMAN_SYNTHESIS, CouncilStage.COMPLETED] :=
  Or.inl ⟨[], rfl⟩

theorem traceOK_err_stage2 :
    stageTraceOK [CouncilStage.PENDING, CouncilStage.FIRST_OPINIONS, CouncilStage.ERROR] :=
  Or.inr ⟨[CouncilStage.PENDING, CouncilStage.FIRST_OPINIONS],
    ⟨[CouncilStage.REVIEW_RANKING, CouncilStage.CHAIRMAN_SYNTHESIS, CouncilStage.COMPLETED], rfl⟩,
    rfl⟩

theorem traceOK_err_stage3 :
    stageTraceOK [CouncilStage.PENDING, CouncilStage.FIRST_OPINIONS,
      CouncilStage.REVIEW_RANKING, CouncilStage.CHAIRMAN_SYNTHESIS, CouncilStage.ERROR] :=
  Or.inr ⟨[CouncilStage.PENDING, CouncilStage.FIRST_OPINIONS, CouncilStage.REVIEW_RANKING,
      CouncilStage.CHAIRMAN_SYNTHESIS], ⟨[CouncilStage.COMPLETED], rfl⟩, rfl⟩

/-- C3: over any run, blocking or streaming, the sequence of values the
stage field takes on is a prefix of PENDING, FIRST_OPINIONS,
REVIEW_RANKING, CHAIRMAN_SYNTHESIS, COMPLETED, or such a prefix followed
by one final ERROR; in particular the stage never regresses to an earlier
non-ERROR stage. -/
theorem stage_trace_prefix (cfg : CouncilConfig) (env : Env) (query : String) :
    stageTraceOK (run_full_council cfg env query).trace ∧
    stageTraceOK (run_council_streaming cfg env query).trace := by
  constructor <;>
  · by_cases hops : (get_all_first_opinions cfg env.opinionOutcomes).isEmpty
    · simp only [run_full_council, run_council_streaming, stageFirstOpinions, stageReviews,
        createSession, hops, if_true]
      exact traceOK_err_stage2
    · rcases hch : get_chairman_synthesis cfg env.chairLocal env.chairRemote with ⟨res, n⟩
      cases res with
      | error e =>
          simp only [run_full_council, run_council_streaming, stageFirstOpinions, stageReviews,
            stageChairman, createSession, hops, if_false, Bool.false_eq_true, hch]
          exact traceOK_err_stage3
      | ok syn =>
          simp only [run_full_council, run_council_streaming, stageFirstOpinions, stageReviews,
            stageChairman, createSession, hops, if_false, Bool.false_eq_true, hch]
          exact traceOK_success

/-- C9: the streaming run yields the session snapshot after creation and
after every phase, so a fully successful run yields exactly the four
snapshot stages PENDING, FIRST_OPINIONS, REVIEW_RANKING, COMPLETED; a
failing run instead ends in exactly one final ERROR snapshot (the model of
the streaming generator is total: no exception crosses the yield
boundary). -/
theorem streaming_snapshots (cfg : CouncilConfig) (env : Env) (query : String) :
    ((run_council_streaming cfg env query).session.stage = CouncilStage.COMPLETED ∧
     (run_council_streaming cfg env query).snapshots.map (fun s => s.stage) =
       [CouncilStage.PENDING, CouncilStage.FIRST_OPINIONS,
        CouncilStage.REVIEW_RANKING, CouncilStage.COMPLETED]) ∨
    ((run_council_streaming cfg env query).session.stage = CouncilStage.ERROR ∧
     ((run_council_streaming cfg env query).snapshots.map (fun s => s.stage) =
        [CouncilStage.PENDING, CouncilStage.FIRST_OPINIONS, CouncilStage.ERROR] ∨
      (run_council_streaming cfg env query).snapshots.map (fun s => s.stage) =
        [CouncilStage.PENDING, CouncilStage.FIRST_OPINIONS,
         CouncilStage.REVIEW_RANKING, CouncilStage.ERROR])) := by
  by_cases hops : (get_all_first_opinions cfg env.opinionOutcomes).isEmpty
  · right
    simp [run_council_streaming, stageFirstOpinions, stageReviews, createSession, hops]
  · rcases hch : get_chairman_synthesis cfg env.chairLocal env.chairRemote with ⟨res, n⟩
    cases res with
    | error e =>
        right
        simp [run_council_streaming, stageFirstOpinions, stageReviews, stageChairman,
          createSession, hops, hch]
    | ok syn =>
        left
        simp [run_council_streaming, stageFirstOpinions, stageReviews, stageChairman,
          createSession, hops, hch]

/-- C4: with zero phase-1 opinions, invoking phase 2 or phase 3 fails with
the corresponding stage-precondition error and makes zero node calls for
that phase, and the full pipeline ends with the session in the ERROR stage
and the error message populated. -/
theorem empty_opinions_stage_precondition (cfg : CouncilConfig) (env : Env) (query : String)
    (s : CouncilSession) (hs : s.first_opinions = [])
    (hops : get_all_first_opinions cfg env.opinionOutcomes = []) :
    ((stageReviews cfg env s).result = Except.error stage2PrecondMsg ∧
     (stageReviews cfg env s).calls = 0) ∧
    ((stageChairman cfg env s).result = Except.error stage3PrecondMsg ∧
     (stageChairman cfg env s).calls = 0) ∧
    ((run_full_council cfg env query).session.stage = CouncilStage.ERROR ∧
     (run_full_council cfg env query).session.error_message = some stage2PrecondMsg ∧
     (run_full_council cfg env query).calls2 = 0 ∧
     (run_full_council cfg env query).calls3 = 0) := by
  refine ⟨⟨?_, ?_⟩, ⟨?_, ?_⟩, ?_⟩
  · simp [stageReviews, hs]
  · simp [stageReviews, hs]
  · simp [stageChairman, hs]
  · simp [stageChairman, hs]
  · simp [run_full_council, stageFirstOpinions, stageReviews, createSession, hops]

/-- An environment in which the only council member times out in phase 1. -/
def envDead : Env :=
  { opinionOutcomes := [HttpOutcome.timeout], reviewOutcomes := [],
    chairLocal := HttpOutcome.timeout, chairRemote := none }

/-- Witness for C4: a single-member council whose member times out. -/
theorem empty_opinions_stage_precondition_witness :
    ((createSession "q").first_opinions = [] ∧
     get_all_first_opinions cfgSolo envDead.opinionOutcomes = []) ∧
    (((stageReviews cfgSolo envDead (createSession "q")).result =
        Except.error stage2PrecondMsg ∧
      (stageReviews cfgSolo envDead (createSession "q")).calls = 0) ∧
     ((stageChairman cfgSolo envDead (createSession "q")).result =
        Except.error stage3PrecondMsg ∧
      (stageChairman cfgSolo envDead (createSession "q")).calls = 0) ∧
     ((run_full_council cfgSolo envDead "q").session.stage = CouncilStage.ERROR ∧
      (run_full_council cfgSolo envDead "q").session.error_message = some stage2PrecondMsg ∧
      (run_full_council cfgSolo envDead "q").calls2 = 0 ∧
      (run_full_council cfgSolo envDead "q").calls3 = 0)) :=
  ⟨⟨rfl, rfl⟩,
   empty_opinions_stage_precondition cfgSolo envDead "q" (createSession "q") rfl rfl⟩

end LLMCouncil
